import Mathlib

/-!
Shallow embedding of `src/server.js` (primeworktops/trade-portal): a
multi-tenant Express backend with JWT authentication, bcrypt password
handling, and PostgreSQL-backed companies / users / company_branding /
quotes tables.  Database tables become lists of records in a `Store`;
each HTTP handler becomes a function from the store (plus the verified
token claims and request body) to a status/response and, for mutating
handlers, a new store.  Asynchronous store queries become sequenced pure
steps; a thrown query error is modelled by an explicit failure-point
parameter where a claim depends on it.
-/

namespace TradePortal

/-! ### JWT secret configuration (server.js line 22)

`const JWT_SECRET = process.env.JWT_SECRET || 'prime-worktops-secret-key-change-in-production';`
The startup sequence (`initDB().then(() => app.listen(...))`) performs no
check on the environment: the server always starts, whatever
`NODE_ENV` and `JWT_SECRET` hold. -/

def defaultJwtSecret : String := "prime-worktops-secret-key-change-in-production"

/-- Resolution of the signing key at process start: the environment value
when set, else the hard-coded default. -/
def resolveJwtSecret (envJwtSecret : Option String) : String :=
  envJwtSecret.getD defaultJwtSecret

/-- Process startup: returns whether the process starts together with the
signing key it will use.  The source has no startup check on
`JWT_SECRET` (nor on `NODE_ENV`, which only selects SSL options for the
connection pool), so the first component is `true` unconditionally. -/
def startServer (nodeEnv envJwtSecret : Option String) : Bool × String :=
  (true, resolveJwtSecret envJwtSecret)

/-! ### Session tokens (jsonwebtoken)

`jwt.sign({userId, companyId, role}, JWT_SECRET, {expiresIn: '7d'})` and
`jwt.verify(token, JWT_SECRET, cb)`.  A token is modelled as its payload
(the three claims plus the `exp` timestamp, in seconds) together with a
signature; the HMAC signature is modelled as the signed content paired
with the key, which captures exactly what verification checks: the
signature matches this key and this payload.  `jsonwebtoken` rejects a
token as expired when the clock timestamp is at or past `exp`. -/

structure TokenClaims where
  userId : Nat
  companyId : Nat
  role : String
deriving DecidableEq, Repr

structure Token where
  claims : TokenClaims
  exp : Nat
  sig : String × TokenClaims × Nat
deriving DecidableEq, Repr

/-- Seven days in seconds: the `expiresIn: '7d'` option. -/
def sevenDays : Nat := 7 * 24 * 60 * 60

def jwtSign (key : String) (c : TokenClaims) (now : Nat) : Token :=
  { claims := c, exp := now + sevenDays, sig := (key, c, now + sevenDays) }

inductive VerifyResult where
  | ok (claims : TokenClaims)
  | invalid
deriving DecidableEq, Repr

def jwtVerify (key : String) (t : Token) (now : Nat) : VerifyResult :=
  if t.sig = (key, t.claims, t.exp) ∧ now < t.exp then .ok t.claims else .invalid

/-- Result of the `authenticateToken` middleware (server.js lines
114-125): 401 `Access denied` when no token is presented, 403
`Invalid token` when `jwt.verify` errors (bad signature or expired),
otherwise the decoded claims are attached to the request. -/
inductive AuthResult where
  | ok (claims : TokenClaims)
  | denied (status : Nat)
deriving DecidableEq, Repr

def authenticateToken (tok : Option Token) (key : String) (now : Nat) : AuthResult :=
  match tok with
  | none => .denied 401
  | some t =>
    match jwtVerify key t now with
    | .ok c => .ok c
    | .invalid => .denied 403

/-! ### Password hashing (bcryptjs)

Modelled from the spec: the bcrypt implementation lives in the external
`bcryptjs` library, not in this repository; §4.1 (Password Verifier)
specifies `hash` as a salted one-way function (fresh random salt per
call) and `verify` as a recompute-and-compare.  The model keeps the salt
and, since one-wayness is irrelevant to a shallow embedding, represents
the digest by the password itself, which preserves the verification
relation exactly: compare succeeds iff the candidate equals the hashed
password. -/

structure BcryptHash where
  salt : Nat
  digest : String
deriving DecidableEq, Repr

def bcryptHash (password : String) (salt : Nat) : BcryptHash :=
  { salt := salt, digest := password }

def bcryptCompare (password : String) (h : BcryptHash) : Bool :=
  password == h.digest

/-! ### Table rows (initDB, server.js lines 25-104)

Nullable columns become `Option`; `DECIMAL` price columns become
`Option Int` (no claim computes with them); timestamp/date columns
become `Nat` (seconds / days since epoch). -/

structure Company where
  id : Nat
  company_name : String
  email : String
  phone : Option String
  address_line1 : Option String
  address_line2 : Option String
  city : Option String
  postcode : Option String
  vat_number : Option String
  account_status : String
deriving DecidableEq, Repr

structure User where
  id : Nat
  company_id : Nat
  email : String
  password_hash : BcryptHash
  first_name : String
  last_name : String
  phone : Option String
  role : String
  is_active : Bool
deriving DecidableEq, Repr

structure Branding where
  id : Nat
  company_id : Nat
  logo_url : Option String
  primary_colour : Option String
  secondary_colour : Option String
  quote_header_text : Option String
  quote_footer_text : Option String
deriving DecidableEq, Repr

structure Quote where
  id : Nat
  company_id : Nat
  created_by : Option Nat
  quote_reference : String
  status : String
  customer_name : Option String
  customer_email : Option String
  customer_phone : Option String
  customer_address : Option String
  customer_postcode : Option String
  material_name : Option String
  material_brand : Option String
  thickness : Option Int
  edge_profile : Option String
  slabs_required : Option Int
  trade_price_ex_vat : Option Int
  trade_price_inc_vat : Option Int
  customer_price_ex_vat : Option Int
  customer_price_inc_vat : Option Int
  quote_data : Option String
  valid_until : Nat
  created_at : Nat
deriving DecidableEq, Repr

/-- The relational store: one list per table, plus the `SERIAL` counters
that supply fresh primary keys. -/
structure Store where
  companies : List Company
  users : List User
  brandings : List Branding
  quotes : List Quote
  nextCompanyId : Nat
  nextUserId : Nat
  nextBrandingId : Nat
  nextQuoteId : Nat
deriving DecidableEq, Repr

/-! ### Quote reference generation (server.js lines 107-111)

`` `PW-${year}-${random}` `` with `random = Math.floor(Math.random()*9000)+1000`;
the random draw is passed in as a parameter. -/

def generateQuoteRef (year rand : Nat) : String :=
  "PW-" ++ toString year ++ "-" ++ toString (rand % 9000 + 1000)

/-! ### POST /api/register (server.js lines 135-184)

Sequence: duplicate-email check on `users`, then three separate awaited
inserts (company, default branding, user) with **no surrounding
transaction**; any thrown query error is caught and mapped to a 500
with the earlier inserts already committed.  `DbFailure` names the
query at which a store error is injected. -/

structure RegisterBody where
  companyName : String
  email : String
  password : String
  firstName : String
  lastName : String
  phone : Option String
  postcode : Option String
deriving DecidableEq, Repr

inductive DbFailure where
  | noFailure
  | atCompanyInsert
  | atBrandingInsert
  | atUserInsert
deriving DecidableEq, Repr

/-- Row built by `INSERT INTO companies (company_name, email, phone, postcode)`:
unlisted columns take their schema defaults (`account_status` defaults
to `'trial'`, the rest are NULL). -/
def mkRegisteredCompany (s : Store) (b : RegisterBody) : Company :=
  { id := s.nextCompanyId, company_name := b.companyName, email := b.email,
    phone := b.phone, address_line1 := none, address_line2 := none,
    city := none, postcode := b.postcode, vat_number := none,
    account_status := "trial" }

/-- Row built by `INSERT INTO company_branding (company_id)`: colour
columns take their schema defaults, the text columns are NULL. -/
def mkDefaultBranding (s : Store) (companyId : Nat) : Branding :=
  { id := s.nextBrandingId, company_id := companyId, logo_url := none,
    primary_colour := some "#033f2a", secondary_colour := some "#f6d466",
    quote_header_text := none, quote_footer_text := none }

/-- Row built by the user insert: role is hard-coded `'trade_admin'`,
`is_active` takes its schema default `true`. -/
def mkRegisteredUser (s : Store) (companyId : Nat) (b : RegisterBody) (salt : Nat) : User :=
  { id := s.nextUserId, company_id := companyId, email := b.email,
    password_hash := bcryptHash b.password salt, first_name := b.firstName,
    last_name := b.lastName, phone := b.phone, role := "trade_admin",
    is_active := true }

structure RegisterResponse where
  status : Nat
  token : Option Token
deriving DecidableEq, Repr

def register (s : Store) (b : RegisterBody) (salt : Nat) (key : String)
    (now : Nat) (fail : DbFailure) : RegisterResponse × Store :=
  if (s.users.filter (fun u => u.email == b.email)).length > 0 then
    ({ status := 400, token := none }, s)
  else
    match fail with
    | .atCompanyInsert => ({ status := 500, token := none }, s)
    | .atBrandingInsert =>
      let c := mkRegisteredCompany s b
      ({ status := 500, token := none },
       { s with companies := s.companies ++ [c],
                nextCompanyId := s.nextCompanyId + 1 })
    | .atUserInsert =>
      let c := mkRegisteredCompany s b
      let br := mkDefaultBranding s c.id
      ({ status := 500, token := none },
       { s with companies := s.companies ++ [c],
                brandings := s.brandings ++ [br],
                nextCompanyId := s.nextCompanyId + 1,
                nextBrandingId := s.nextBrandingId + 1 })
    | .noFailure =>
      let c := mkRegisteredCompany s b
      let br := mkDefaultBranding s c.id
      let u := mkRegisteredUser s c.id b salt
      ({ status := 200,
         token := some (jwtSign key
           { userId := u.id, companyId := c.id, role := "trade_admin" } now) },
       { s with companies := s.companies ++ [c],
                brandings := s.brandings ++ [br],
                users := s.users ++ [u],
                nextCompanyId := s.nextCompanyId + 1,
                nextBrandingId := s.nextBrandingId + 1,
                nextUserId := s.nextUserId + 1 })

/-! ### POST /api/login (server.js lines 187-235)

`SELECT u.*, c.company_name, c.account_status FROM users u JOIN
companies c ON u.company_id = c.id WHERE u.email = $1`, then
`bcrypt.compare`; the handler never reads `is_active`.  Both a missing
row and a failed compare yield 400 `Invalid email or password`. -/

inductive LoginResult where
  | ok (token : Token)
  | badCredentials
deriving DecidableEq, Repr

def login (s : Store) (email password : String) (key : String) (now : Nat) :
    LoginResult :=
  match s.users.find? (fun u => u.email == email) with
  | none => .badCredentials
  | some u =>
    match s.companies.find? (fun c => c.id == u.company_id) with
    | none => .badCredentials
    | some _ =>
      if bcryptCompare password u.password_hash then
        .ok (jwtSign key
          { userId := u.id, companyId := u.company_id, role := u.role } now)
      else .badCredentials

/-! ### GET /api/branding (server.js lines 260-274)

`SELECT cb.*, c.company_name, ... FROM company_branding cb JOIN
companies c ON cb.company_id = c.id WHERE cb.company_id = $1`, answered
with `res.json(result.rows[0] || {})`: always HTTP 200, an empty JSON
object when the query returned no row. -/

structure BrandingGetRow where
  branding : Branding
  company : Company
deriving DecidableEq, Repr

inductive BrandingGetResponse where
  | row (r : BrandingGetRow)
  | emptyObject
deriving DecidableEq, Repr

def getBranding (s : Store) (companyId : Nat) : Nat × BrandingGetResponse :=
  match s.brandings.find? (fun cb => cb.company_id == companyId) with
  | none => (200, .emptyObject)
  | some cb =>
    match s.companies.find? (fun c => c.id == cb.company_id) with
    | none => (200, .emptyObject)
    | some c => (200, .row { branding := cb, company := c })

/-! ### PUT /api/branding and PUT /api/company (server.js lines 277-318)

Both run a single `UPDATE ... SET col = COALESCE($i, col) ... WHERE
<company predicate>`: a NULL parameter (absent JSON field) keeps the
stored value, a non-NULL parameter overwrites it, and only rows
matching the company predicate are touched. -/

def coalesce (param old : Option String) : Option String :=
  match param with
  | some v => some v
  | none => old

structure BrandingUpdateBody where
  logoUrl : Option String
  primaryColour : Option String
  secondaryColour : Option String
  quoteHeaderText : Option String
  quoteFooterText : Option String
deriving DecidableEq, Repr

def updateBrandingRow (body : BrandingUpdateBody) (cb : Branding) : Branding :=
  { cb with
    logo_url := coalesce body.logoUrl cb.logo_url,
    primary_colour := coalesce body.primaryColour cb.primary_colour,
    secondary_colour := coalesce body.secondaryColour cb.secondary_colour,
    quote_header_text := coalesce body.quoteHeaderText cb.quote_header_text,
    quote_footer_text := coalesce body.quoteFooterText cb.quote_footer_text }

def putBranding (s : Store) (companyId : Nat) (body : BrandingUpdateBody) :
    Nat × Store :=
  (200, { s with brandings := s.brandings.map (fun cb =>
            if cb.company_id == companyId then updateBrandingRow body cb else cb) })

structure CompanyUpdateBody where
  companyName : Option String
  phone : Option String
  addressLine1 : Option String
  addressLine2 : Option String
  city : Option String
  postcode : Option String
  vatNumber : Option String
deriving DecidableEq, Repr

def updateCompanyRow (body : CompanyUpdateBody) (c : Company) : Company :=
  { c with
    company_name := (body.companyName).getD c.company_name,
    phone := coalesce body.phone c.phone,
    address_line1 := coalesce body.addressLine1 c.address_line1,
    address_line2 := coalesce body.addressLine2 c.address_line2,
    city := coalesce body.city c.city,
    postcode := coalesce body.postcode c.postcode,
    vat_number := coalesce body.vatNumber c.vat_number }

def putCompany (s : Store) (companyId : Nat) (body : CompanyUpdateBody) :
    Nat × Store :=
  (200, { s with companies := s.companies.map (fun c =>
            if c.id == companyId then updateCompanyRow body c else c) })

/-! ### POST /api/quotes (server.js lines 321-349)

`company_id` and `created_by` come from the verified token, the
reference from `generateQuoteRef()`; `status` and `valid_until` take
their schema defaults (`'draft'`, current date + 30 days); every other
column is the corresponding body field (NULL when absent). -/

structure QuoteBody where
  customerName : Option String
  customerEmail : Option String
  customerPhone : Option String
  customerAddress : Option String
  customerPostcode : Option String
  materialName : Option String
  materialBrand : Option String
  thickness : Option Int
  edgeProfile : Option String
  slabsRequired : Option Int
  tradePriceExVat : Option Int
  tradePriceIncVat : Option Int
  customerPriceExVat : Option Int
  customerPriceIncVat : Option Int
  quoteData : Option String
deriving DecidableEq, Repr

def mkQuote (s : Store) (claims : TokenClaims) (b : QuoteBody)
    (quoteRef : String) (today : Nat) : Quote :=
  { id := s.nextQuoteId, company_id := claims.companyId,
    created_by := some claims.userId, quote_reference := quoteRef,
    status := "draft",
    customer_name := b.customerName, customer_email := b.customerEmail,
    customer_phone := b.customerPhone, customer_address := b.customerAddress,
    customer_postcode := b.customerPostcode,
    material_name := b.materialName, material_brand := b.materialBrand,
    thickness := b.thickness, edge_profile := b.edgeProfile,
    slabs_required := b.slabsRequired,
    trade_price_ex_vat := b.tradePriceExVat,
    trade_price_inc_vat := b.tradePriceIncVat,
    customer_price_ex_vat := b.customerPriceExVat,
    customer_price_inc_vat := b.customerPriceIncVat,
    quote_data := b.quoteData, valid_until := today + 30, created_at := today }

def createQuote (s : Store) (claims : TokenClaims) (b : QuoteBody)
    (quoteRef : String) (today : Nat) : (Nat × Quote) × Store :=
  let q := mkQuote s claims b quoteRef today
  ((200, q),
   { s with quotes := s.quotes ++ [q], nextQuoteId := s.nextQuoteId + 1 })

/-! ### Quote reads (server.js lines 352-387)

Both quote reads `LEFT JOIN users u ON q.created_by = u.id` to attach
the creator's name; the left join keeps the quote row when the user is
gone. -/

structure QuoteRow where
  quote : Quote
  first_name : Option String
  last_name : Option String
deriving DecidableEq, Repr

def joinCreator (s : Store) (q : Quote) : QuoteRow :=
  match q.created_by.bind (fun uid => s.users.find? (fun u => u.id == uid)) with
  | some u => { quote := q, first_name := some u.first_name,
                last_name := some u.last_name }
  | none => { quote := q, first_name := none, last_name := none }

def insertByCreatedDesc (q : Quote) : List Quote → List Quote
  | [] => [q]
  | x :: xs =>
    if x.created_at ≤ q.created_at then q :: x :: xs
    else x :: insertByCreatedDesc q xs

def sortByCreatedDesc : List Quote → List Quote
  | [] => []
  | x :: xs => insertByCreatedDesc x (sortByCreatedDesc xs)

/-- GET /api/quotes: all quotes of the caller's company, ordered by
`created_at DESC`. -/
def listQuotes (s : Store) (companyId : Nat) : List QuoteRow :=
  (sortByCreatedDesc (s.quotes.filter (fun q => q.company_id == companyId))).map
    (joinCreator s)

/-- GET /api/quotes/:id: `WHERE q.id = $1 AND q.company_id = $2`; zero
rows — whether the id does not exist at all or the quote belongs to
another company — yield the same 404 `Quote not found`. -/
def getQuote (s : Store) (companyId quoteId : Nat) : Nat × Option QuoteRow :=
  match s.quotes.find? (fun q => q.id == quoteId && q.company_id == companyId) with
  | none => (404, none)
  | some q => (200, some (joinCreator s q))

/-- PATCH /api/quotes/:id/status (server.js lines 390-402):
`UPDATE quotes SET status = $1 WHERE id = $2 AND company_id = $3`,
answered 200 `{success:true}` regardless of how many rows matched. -/
def updateQuoteStatus (s : Store) (companyId quoteId : Nat) (status : String) :
    Nat × Store :=
  (200, { s with quotes := s.quotes.map (fun q =>
            if q.id == quoteId && q.company_id == companyId then
              { q with status := status }
            else q) })

/-! ### Concrete fixtures used by witness instantiations -/

def emptyStore : Store :=
  { companies := [], users := [], brandings := [], quotes := [],
    nextCompanyId := 1, nextUserId := 1, nextBrandingId := 1, nextQuoteId := 1 }

def sampleQuote : Quote :=
  { id := 1, company_id := 2, created_by := some 7,
    quote_reference := "PW-2026-1234", status := "draft",
    customer_name := some "Jane Doe", customer_email := none,
    customer_phone := none, customer_address := none, customer_postcode := none,
    material_name := some "Quartz", material_brand := none, thickness := none,
    edge_profile := none, slabs_required := some 1,
    trade_price_ex_vat := some 500, trade_price_inc_vat := none,
    customer_price_ex_vat := none, customer_price_inc_vat := none,
    quote_data := none, valid_until := 30, created_at := 0 }

def sampleRegisterBody : RegisterBody :=
  { companyName := "Acme Worktops", email := "a@acme.test",
    password := "secret123", firstName := "Ada", lastName := "Acme",
    phone := none, postcode := some "AB1 2CD" }

/-! ## Claims -/

/-- C1: a `GET /quotes/:id` request authenticated for company A, asking
for a quote id that either does not exist or belongs to a different
company, gets exactly the response `(404, no body)` — the quote data is
not returned, the status is not 403, and the cross-tenant case is
indistinguishable from the nonexistent-id case because both fall under
this one hypothesis and produce the identical response value. -/
theorem c1_cross_tenant_not_found (s : Store) (a quoteId : Nat)
    (h : ∀ q ∈ s.quotes, q.id = quoteId → q.company_id ≠ a) :
    getQuote s a quoteId = (404, none) := by
  have hn : s.quotes.find? (fun q => q.id == quoteId && q.company_id == a) = none := by
    apply List.find?_eq_none.mpr
    intro q hq
    simp only [Bool.and_eq_true, beq_iff_eq, not_and]
    exact h q hq
  simp [getQuote, hn]

/-- C1 witness: a store holding exactly one quote (id 1, owned by
company 2); a caller authenticated for company 1 receives `(404, none)`. -/
theorem c1_witness :
    getQuote { emptyStore with quotes := [sampleQuote] } 1 1 = (404, none) :=
  c1_cross_tenant_not_found { emptyStore with quotes := [sampleQuote] } 1 1
    (by decide)

/-- C2 counterexample: with `NODE_ENV=production` and `JWT_SECRET`
unset, the process does NOT refuse to start — it starts (first
component `true`) and runs with the hard-coded default signing key,
refuting the claim that it fails fast in a production posture. -/
theorem c2_counterexample :
    (startServer (some "production") none).1 = true ∧
    (startServer (some "production") none).2 = defaultJwtSecret :=
  ⟨rfl, rfl⟩

/-- C2 amended: when `JWT_SECRET` is unset the process starts anyway —
under any `NODE_ENV`, including production — and uses the constant
default key `prime-worktops-secret-key-change-in-production`; when
`JWT_SECRET` is set, that value is used.  No fail-fast startup check
exists. -/
theorem c2_default_key_no_fail_fast (nodeEnv : Option String) (k : String) :
    (startServer nodeEnv none).1 = true ∧
    (startServer nodeEnv none).2 = defaultJwtSecret ∧
    resolveJwtSecret (some k) = k :=
  ⟨rfl, rfl, rfl⟩

/-- C3: verifying (through the `authenticateToken` middleware) a token
issued by `jwt.sign` for `(userId, companyId, role)` yields exactly
those three claims while the clock is before the 7-day expiry, and
yields the 403 Forbidden response once the clock reaches or passes it. -/
theorem c3_issue_verify_roundtrip (uid cid : Nat) (role key : String)
    (issuedAt now : Nat) :
    (now < issuedAt + sevenDays →
      authenticateToken (some (jwtSign key ⟨uid, cid, role⟩ issuedAt)) key now
        = .ok ⟨uid, cid, role⟩) ∧
    (issuedAt + sevenDays ≤ now →
      authenticateToken (some (jwtSign key ⟨uid, cid, role⟩ issuedAt)) key now
        = .denied 403) := by
  constructor
  · intro h
    simp [authenticateToken, jwtVerify, jwtSign, h]
  · intro h
    simp [authenticateToken, jwtVerify, jwtSign, Nat.not_lt.mpr h]

/-- C3 witness: a token issued at time 0 for user 1 / company 2 /
role `trade_admin` verifies to exactly those claims at time 3, and is
rejected with 403 at `sevenDays + 5`. -/
theorem c3_witness :
    authenticateToken (some (jwtSign "k" ⟨1, 2, "trade_admin"⟩ 0)) "k" 3
      = .ok ⟨1, 2, "trade_admin"⟩ ∧
    authenticateToken (some (jwtSign "k" ⟨1, 2, "trade_admin"⟩ 0)) "k"
      (sevenDays + 5) = .denied 403 :=
  ⟨(c3_issue_verify_roundtrip 1 2 "trade_admin" "k" 0 3).1 (by decide),
   (c3_issue_verify_roundtrip 1 2 "trade_admin" "k" 0 (sevenDays + 5)).2
     (by simp [sevenDays])⟩

/-- C4: comparing a password against its own hash succeeds, and
comparing a different password against that hash fails (Password
Verifier modelled from spec §4.1; bcryptjs itself is an external
library). -/
theorem c4_bcrypt_roundtrip (p p1 p2 : String) (salt salt1 : Nat)
    (hne : p1 ≠ p2) :
    bcryptCompare p (bcryptHash p salt) = true ∧
    bcryptCompare p2 (bcryptHash p1 salt1) = false := by
  constructor
  · simp [bcryptCompare, bcryptHash]
  · simp only [bcryptCompare, bcryptHash, beq_eq_false_iff_ne, ne_eq]
    exact fun h => hne h.symm

/-- C4 witness: `secret123` verifies against its own hash; `other`
does not verify against the hash of `secret123`. -/
theorem c4_witness :
    bcryptCompare "secret123" (bcryptHash "secret123" 0) = true ∧
    bcryptCompare "other" (bcryptHash "secret123" 1) = false :=
  c4_bcrypt_roundtrip "secret123" "secret123" "other" 0 1 (by decide)

/-- C5: partial-update semantics of PUT /branding and PUT /company.
For any branding row at position `i` and company row at position `j`:
a row whose company does not match the caller's token is left exactly
as it was; the matching row is rewritten field-by-field through
`COALESCE`, so each stored field becomes `coalesce provided old` —
together with the `coalesce`/`getD` laws in the last conjuncts this
says an omitted (`none`) field retains its prior stored value and only
a provided field overwrites.  Key/identity columns (`id`,
`company_id`, `email`, `account_status`) are never touched. -/
theorem c5_partial_update (s : Store) (cid : Nat) (bb : BrandingUpdateBody)
    (cbody : CompanyUpdateBody) (i j : Nat) (r : Branding) (c : Company)
    (hb : s.brandings[i]? = some r) (hc : s.companies[j]? = some c) :
    ((putBranding s cid bb).1 = 200 ∧ (putCompany s cid cbody).1 = 200) ∧
    (r.company_id ≠ cid → (putBranding s cid bb).2.brandings[i]? = some r) ∧
    (r.company_id = cid →
      (putBranding s cid bb).2.brandings[i]? = some (updateBrandingRow bb r)) ∧
    (updateBrandingRow bb r).id = r.id ∧
    (updateBrandingRow bb r).company_id = r.company_id ∧
    (updateBrandingRow bb r).logo_url = coalesce bb.logoUrl r.logo_url ∧
    (updateBrandingRow bb r).primary_colour
      = coalesce bb.primaryColour r.primary_colour ∧
    (updateBrandingRow bb r).secondary_colour
      = coalesce bb.secondaryColour r.secondary_colour ∧
    (updateBrandingRow bb r).quote_header_text
      = coalesce bb.quoteHeaderText r.quote_header_text ∧
    (updateBrandingRow bb r).quote_footer_text
      = coalesce bb.quoteFooterText r.quote_footer_text ∧
    (c.id ≠ cid → (putCompany s cid cbody).2.companies[j]? = some c) ∧
    (c.id = cid →
      (putCompany s cid cbody).2.companies[j]? = some (updateCompanyRow cbody c)) ∧
    (updateCompanyRow cbody c).id = c.id ∧
    (updateCompanyRow cbody c).email = c.email ∧
    (updateCompanyRow cbody c).account_status = c.account_status ∧
    (updateCompanyRow cbody c).company_name = (cbody.companyName).getD c.company_name ∧
    (updateCompanyRow cbody c).phone = coalesce cbody.phone c.phone ∧
    (updateCompanyRow cbody c).address_line1 = coalesce cbody.addressLine1 c.address_line1 ∧
    (updateCompanyRow cbody c).address_line2 = coalesce cbody.addressLine2 c.address_line2 ∧
    (updateCompanyRow cbody c).city = coalesce cbody.city c.city ∧
    (updateCompanyRow cbody c).postcode = coalesce cbody.postcode c.postcode ∧
    (updateCompanyRow cbody c).vat_number = coalesce cbody.vatNumber c.vat_number ∧
    (∀ old : Option String, coalesce none old = old) ∧
    (∀ (v : String) (old : Option String), coalesce (some v) old = some v) ∧
    (∀ d : String, (none : Option String).getD d = d) := by
  have hb2 : (putBranding s cid bb).2.brandings[i]?
      = some (if r.company_id == cid then updateBrandingRow bb r else r) := by
    simp [putBranding, hb]
  have hc2 : (putCompany s cid cbody).2.companies[j]?
      = some (if c.id == cid then updateCompanyRow cbody c else c) := by
    simp [putCompany, hc]
  refine ⟨⟨rfl, rfl⟩, ?_, ?_, rfl, rfl, rfl, rfl, rfl, rfl, rfl, ?_, ?_,
    rfl, rfl, rfl, rfl, rfl, rfl, rfl, rfl, rfl, rfl,
    fun old => rfl, fun v old => rfl, fun d => rfl⟩
  · intro h; rw [hb2]; simp [h]
  · intro h; rw [hb2]; simp [h]
  · intro h; rw [hc2]; simp [h]
  · intro h; rw [hc2]; simp [h]

def sampleBranding1 : Branding :=
  { id := 1, company_id := 1, logo_url := none,
    primary_colour := some "#033f2a", secondary_colour := some "#f6d466",
    quote_header_text := none, quote_footer_text := none }

def sampleBranding2 : Branding := { sampleBranding1 with id := 2, company_id := 2 }

def sampleCompany1 : Company :=
  { id := 1, company_name := "Acme Worktops", email := "a@acme.test",
    phone := none, address_line1 := none, address_line2 := none,
    city := none, postcode := some "AB1 2CD", vat_number := none,
    account_status := "trial" }

def sampleCompany2 : Company := { sampleCompany1 with id := 2, email := "b@beta.test" }

def c5Store : Store :=
  { emptyStore with companies := [sampleCompany1, sampleCompany2],
                    brandings := [sampleBranding1, sampleBranding2],
                    nextCompanyId := 3, nextBrandingId := 3 }

/-- Update body supplying only `primaryColour`. -/
def onlyPrimary : BrandingUpdateBody :=
  { logoUrl := none, primaryColour := some "#112233", secondaryColour := none,
    quoteHeaderText := none, quoteFooterText := none }

def emptyCompanyBody : CompanyUpdateBody :=
  { companyName := none, phone := none, addressLine1 := none,
    addressLine2 := none, city := none, postcode := none, vatNumber := none }

/-- C5 witness: with a store holding branding rows for companies 1 and
2, a caller from company 1 updating only `primaryColour` leaves company
2's row identical, rewrites company 1's row through the update, and
company 1's `secondary_colour` is exactly what it was before. -/
theorem c5_witness :
    (putBranding c5Store 1 onlyPrimary).2.brandings[1]? = some sampleBranding2 ∧
    (putBranding c5Store 1 onlyPrimary).2.brandings[0]?
      = some (updateBrandingRow onlyPrimary sampleBranding1) ∧
    (updateBrandingRow onlyPrimary sampleBranding1).secondary_colour
      = sampleBranding1.secondary_colour := by
  have hA := c5_partial_update c5Store 1 onlyPrimary emptyCompanyBody 1 0
    sampleBranding2 sampleCompany1 rfl rfl
  have hB := c5_partial_update c5Store 1 onlyPrimary emptyCompanyBody 0 0
    sampleBranding1 sampleCompany1 rfl rfl
  refine ⟨hA.2.1 (by decide), hB.2.2.1 rfl, ?_⟩
  exact (hB.2.2.2.2.2.2.2.1).trans rfl

/-- C6: registration's three inserts are not atomic.  Starting from any
store passing the duplicate-email check, a store error thrown at the
user insert leaves the already-inserted company and branding rows in
place with the users table untouched (company with branding but no
user), and an error at the branding insert leaves the company row alone
(company without branding or user); the client sees a 500 either way. -/
theorem c6_registration_not_atomic (s : Store) (b : RegisterBody) (salt : Nat)
    (key : String) (now : Nat)
    (h : (s.users.filter (fun u => u.email == b.email)).length = 0) :
    ((register s b salt key now .atUserInsert).1.status = 500 ∧
      (register s b salt key now .atUserInsert).2.companies
        = s.companies ++ [mkRegisteredCompany s b] ∧
      (register s b salt key now .atUserInsert).2.brandings
        = s.brandings ++ [mkDefaultBranding s s.nextCompanyId] ∧
      (register s b salt key now .atUserInsert).2.users = s.users) ∧
    ((register s b salt key now .atBrandingInsert).1.status = 500 ∧
      (register s b salt key now .atBrandingInsert).2.companies
        = s.companies ++ [mkRegisteredCompany s b] ∧
      (register s b salt key now .atBrandingInsert).2.brandings = s.brandings ∧
      (register s b salt key now .atBrandingInsert).2.users = s.users) := by
  have hcond : ¬ (s.users.filter (fun u => u.email == b.email)).length > 0 := by
    simp [h]
  unfold register
  simp [if_neg hcond, mkRegisteredCompany]

/-- C6 witness: registering `a@acme.test` into the empty store with the
user insert failing yields a 500 with a company and branding row
present and no user row. -/
theorem c6_witness :
    (register emptyStore sampleRegisterBody 0 "k" 0 .atUserInsert).1.status = 500 ∧
    (register emptyStore sampleRegisterBody 0 "k" 0 .atUserInsert).2.companies
      = [mkRegisteredCompany emptyStore sampleRegisterBody] ∧
    (register emptyStore sampleRegisterBody 0 "k" 0 .atUserInsert).2.brandings
      = [mkDefaultBranding emptyStore 1] ∧
    (register emptyStore sampleRegisterBody 0 "k" 0 .atUserInsert).2.users = [] :=
  ((c6_registration_not_atomic emptyStore sampleRegisterBody 0 "k" 0 (by decide)).1)

/-- C7: registering an email that no existing user, company or branding
row collides with succeeds (200) and leaves exactly one user, one
company and one branding row forming the new tenant triple; a second
registration attempt with the same email is then rejected with 400 by
the duplicate-email check before any insert — whatever query failure
might have been pending — and the store is returned exactly unchanged. -/
theorem c7_duplicate_email_rejected (s : Store) (b b2 : RegisterBody)
    (salt salt2 : Nat) (key : String) (now now2 : Nat) (fail2 : DbFailure)
    (hemail : b2.email = b.email)
    (hu : ∀ u ∈ s.users, u.email ≠ b.email)
    (hcm : ∀ c ∈ s.companies, c.email ≠ b.email)
    (hbr : ∀ br ∈ s.brandings, br.company_id ≠ s.nextCompanyId) :
    (register s b salt key now .noFailure).1.status = 200 ∧
    ((register s b salt key now .noFailure).2.users.filter
        (fun u => u.email == b.email))
      = [mkRegisteredUser s s.nextCompanyId b salt] ∧
    ((register s b salt key now .noFailure).2.companies.filter
        (fun c => c.email == b.email))
      = [mkRegisteredCompany s b] ∧
    ((register s b salt key now .noFailure).2.brandings.filter
        (fun br => br.company_id == s.nextCompanyId))
      = [mkDefaultBranding s s.nextCompanyId] ∧
    register (register s b salt key now .noFailure).2 b2 salt2 key now2 fail2
      = ({ status := 400, token := none },
         (register s b salt key now .noFailure).2) := by
  have hu0 : s.users.filter (fun u => u.email == b.email) = [] := by
    apply List.filter_eq_nil_iff.mpr
    intro u hmem
    simp only [beq_iff_eq]
    exact hu u hmem
  have hc0 : s.companies.filter (fun c => c.email == b.email) = [] := by
    apply List.filter_eq_nil_iff.mpr
    intro c hmem
    simp only [beq_iff_eq]
    exact hcm c hmem
  have hb0 : s.brandings.filter (fun br => br.company_id == s.nextCompanyId) = [] := by
    apply List.filter_eq_nil_iff.mpr
    intro br hmem
    simp only [beq_iff_eq]
    exact hbr br hmem
  have hcond : ¬ (s.users.filter (fun u => u.email == b.email)).length > 0 := by
    simp [hu0]
  have hreg : register s b salt key now .noFailure
      = ({ status := 200,
           token := some (jwtSign key
             ⟨s.nextUserId, s.nextCompanyId, "trade_admin"⟩ now) },
         { s with companies := s.companies ++ [mkRegisteredCompany s b],
                  brandings := s.brandings ++ [mkDefaultBranding s s.nextCompanyId],
                  users := s.users ++ [mkRegisteredUser s s.nextCompanyId b salt],
                  nextCompanyId := s.nextCompanyId + 1,
                  nextBrandingId := s.nextBrandingId + 1,
                  nextUserId := s.nextUserId + 1 }) := by
    unfold register
    simp [if_neg hcond, mkRegisteredCompany, mkRegisteredUser, mkDefaultBranding,
      jwtSign]
  rw [hreg]
  have husers : (s.users ++ [mkRegisteredUser s s.nextCompanyId b salt]).filter
      (fun u => u.email == b.email) = [mkRegisteredUser s s.nextCompanyId b salt] := by
    rw [List.filter_append, hu0]
    simp [mkRegisteredUser]
  refine ⟨rfl, husers, ?_, ?_, ?_⟩
  · rw [List.filter_append, hc0]
    simp [mkRegisteredCompany]
  · rw [List.filter_append, hb0]
    simp [mkDefaultBranding]
  · have hpos : ((s.users ++ [mkRegisteredUser s s.nextCompanyId b salt]).filter
        (fun u => u.email == b2.email)).length > 0 := by
      simp only [hemail, husers]
      simp
    unfold register
    rw [if_pos hpos]

/-- C7 witness: registering `a@acme.test` into the empty store succeeds,
and immediately re-registering the same email is answered 400 with the
store returned exactly as it was after the first registration. -/
theorem c7_witness :
    (register emptyStore sampleRegisterBody 0 "k" 0 .noFailure).1.status = 200 ∧
    ((register emptyStore sampleRegisterBody 0 "k" 0 .noFailure).2.users.filter
        (fun u => u.email == sampleRegisterBody.email))
      = [mkRegisteredUser emptyStore 1 sampleRegisterBody 0] ∧
    register (register emptyStore sampleRegisterBody 0 "k" 0 .noFailure).2
        sampleRegisterBody 1 "k" 5 .noFailure
      = ({ status := 400, token := none },
         (register emptyStore sampleRegisterBody 0 "k" 0 .noFailure).2) := by
  have h := c7_duplicate_email_rejected emptyStore sampleRegisterBody
    sampleRegisterBody 0 1 "k" 0 5 .noFailure rfl (by simp [emptyStore])
    (by simp [emptyStore]) (by simp [emptyStore])
  exact ⟨h.1, h.2.1, h.2.2.2.2⟩

/-- C8: post-creation immutability of quotes.  None of register,
PUT /branding, PUT /company touches the quotes table; POST /quotes only
appends a new row, leaving every existing row in place; and
PATCH /quotes/:id/status rewrites the row at position `i` to
`{ q with status := st }` exactly when both the id and the caller's
company match, and leaves it exactly unchanged otherwise — and a
status-rewrite preserves `company_id`, `created_by` and
`quote_reference`. -/
theorem c8_quote_immutability (s : Store) (b : RegisterBody) (salt : Nat)
    (key : String) (now : Nat) (fail : DbFailure)
    (bb : BrandingUpdateBody) (cbody : CompanyUpdateBody)
    (claims : TokenClaims) (qb : QuoteBody) (quoteRef : String) (today : Nat)
    (cid quoteId : Nat) (st : String) (i : Nat) (q : Quote)
    (hq : s.quotes[i]? = some q) :
    (register s b salt key now fail).2.quotes = s.quotes ∧
    (putBranding s cid bb).2.quotes = s.quotes ∧
    (putCompany s cid cbody).2.quotes = s.quotes ∧
    (createQuote s claims qb quoteRef today).2.quotes
      = s.quotes ++ [mkQuote s claims qb quoteRef today] ∧
    (q.id = quoteId ∧ q.company_id = cid →
      (updateQuoteStatus s cid quoteId st).2.quotes[i]?
        = some { q with status := st }) ∧
    (¬ (q.id = quoteId ∧ q.company_id = cid) →
      (updateQuoteStatus s cid quoteId st).2.quotes[i]? = some q) ∧
    ({ q with status := st } : Quote).company_id = q.company_id ∧
    ({ q with status := st } : Quote).created_by = q.created_by ∧
    ({ q with status := st } : Quote).quote_reference = q.quote_reference := by
  have hreg : (register s b salt key now fail).2.quotes = s.quotes := by
    unfold register
    split
    · rfl
    · cases fail <;> rfl
  have hupd : (updateQuoteStatus s cid quoteId st).2.quotes[i]?
      = some (if q.id == quoteId && q.company_id == cid then
                { q with status := st } else q) := by
    simp [updateQuoteStatus, hq]
  refine ⟨hreg, rfl, rfl, rfl, ?_, ?_, rfl, rfl, rfl⟩
  · rintro ⟨h1, h2⟩
    rw [hupd]
    simp [h1, h2]
  · intro hn
    rw [hupd]
    have hfalse : ¬ (q.id == quoteId && q.company_id == cid) = true := by
      simp only [Bool.and_eq_true, beq_iff_eq]
      exact hn
    simp [hfalse]

/-- C8 witness: in a store holding one quote (id 1, company 2), a
status patch from company 2 rewrites only the status and a patch from
company 1 leaves the row exactly unchanged; creating a quote appends. -/
theorem c8_witness :
    (updateQuoteStatus { emptyStore with quotes := [sampleQuote] } 2 1 "sent").2.quotes[0]?
      = some { sampleQuote with status := "sent" } ∧
    (updateQuoteStatus { emptyStore with quotes := [sampleQuote] } 1 1 "sent").2.quotes[0]?
      = some sampleQuote ∧
    ({ sampleQuote with status := "sent" } : Quote).quote_reference
      = sampleQuote.quote_reference := by
  have h2 := c8_quote_immutability { emptyStore with quotes := [sampleQuote] }
    sampleRegisterBody 0 "k" 0 .noFailure
    onlyPrimary emptyCompanyBody ⟨1, 2, "trade_admin"⟩
    { customerName := none, customerEmail := none, customerPhone := none,
      customerAddress := none, customerPostcode := none, materialName := none,
      materialBrand := none, thickness := none, edgeProfile := none,
      slabsRequired := none, tradePriceExVat := none, tradePriceIncVat := none,
      customerPriceExVat := none, customerPriceIncVat := none, quoteData := none }
    "PW-2026-5678" 1 2 1 "sent" 0 sampleQuote rfl
  have h1 := c8_quote_immutability { emptyStore with quotes := [sampleQuote] }
    sampleRegisterBody 0 "k" 0 .noFailure
    onlyPrimary emptyCompanyBody ⟨1, 2, "trade_admin"⟩
    { customerName := none, customerEmail := none, customerPhone := none,
      customerAddress := none, customerPostcode := none, materialName := none,
      materialBrand := none, thickness := none, edgeProfile := none,
      slabsRequired := none, tradePriceExVat := none, tradePriceIncVat := none,
      customerPriceExVat := none, customerPriceIncVat := none, quoteData := none }
    "PW-2026-5678" 1 1 1 "sent" 0 sampleQuote rfl
  exact ⟨h2.2.2.2.2.1 (by decide), h1.2.2.2.2.2.1 (by decide),
    h2.2.2.2.2.2.2.2.2⟩

/-- C9: the login handler never consults `is_active`: a user row found
by email whose password verifies — even with `is_active = false` — logs
in successfully and is issued a token for `(id, company_id, role)`. -/
theorem c9_login_ignores_is_active (s : Store) (email password key : String)
    (now : Nat) (u : User)
    (hu : s.users.find? (fun x => x.email == email) = some u)
    (hcomp : ∃ c, s.companies.find? (fun c => c.id == u.company_id) = some c)
    (hp : bcryptCompare password u.password_hash = true)
    (hinactive : u.is_active = false) :
    login s email password key now
      = .ok (jwtSign key ⟨u.id, u.company_id, u.role⟩ now) := by
  obtain ⟨c, hc⟩ := hcomp
  simp [login, hu, hc, hp]

def sampleInactiveUser : User :=
  { id := 1, company_id := 1, email := "a@acme.test",
    password_hash := bcryptHash "secret123" 0, first_name := "Ada",
    last_name := "Acme", phone := none, role := "trade_admin",
    is_active := false }

def c9Store : Store :=
  { emptyStore with companies := [sampleCompany1],
                    users := [sampleInactiveUser],
                    nextCompanyId := 2, nextUserId := 2 }

/-- C9 witness: a deactivated user (`is_active = false`) with the right
password logs in and receives a token. -/
theorem c9_witness :
    login c9Store "a@acme.test" "secret123" "k" 0
      = .ok (jwtSign "k" ⟨1, 1, "trade_admin"⟩ 0) :=
  c9_login_ignores_is_active c9Store "a@acme.test" "secret123" "k" 0
    sampleInactiveUser rfl ⟨sampleCompany1, rfl⟩ (by decide) rfl

/-- C10: when no `company_branding` row exists for the caller's
company, GET /branding answers status 200 with the empty JSON object
(`result.rows[0] || {}`), not a 404 and not an error. -/
theorem c10_branding_missing_empty_object (s : Store) (cid : Nat)
    (h : ∀ cb ∈ s.brandings, cb.company_id ≠ cid) :
    getBranding s cid = (200, .emptyObject) := by
  have hn : s.brandings.find? (fun cb => cb.company_id == cid) = none := by
    apply List.find?_eq_none.mpr
    intro cb hmem
    simp only [beq_iff_eq]
    exact h cb hmem
  simp [getBranding, hn]

/-- C10 witness: a store whose only branding row belongs to company 2
answers company 1's GET /branding with `(200, empty object)`. -/
theorem c10_witness :
    getBranding { emptyStore with companies := [sampleCompany2],
                                  brandings := [sampleBranding2] } 1
      = (200, .emptyObject) :=
  c10_branding_missing_empty_object
    { emptyStore with companies := [sampleCompany2],
                      brandings := [sampleBranding2] } 1 (by decide)

end TradePortal
